import Mathlib

/-!
Verification of the elasticlient core against its specification.

The development shallowly embeds the C++ sources:
* the multi-node request dispatcher (`client.cc` / `client-impl.h`),
* the bulk-operation batching and partial-failure accounting (`bulk.cc` / `bulk-impl.h`),
* the scroll/scan cursor protocol (`scroll.cc`).

External collaborators are modelled narrowly, following the spec's scope:
the HTTP transport is a function from attempts (or requests) to responses,
and the JSON value-tree collaborator is an inductive `Json` type; a response
body is carried as the outcome of parsing it (`Option Json`).
-/

namespace Elasticlient

/-- JSON value tree: the opaque value-tree collaborator the core inspects by
key.  Scalars that the core never distinguishes further (doubles and the
like) are represented by the constructors below; integer-valued statuses use
`int`. -/
inductive Json where
  | null : Json
  | bool (b : Bool) : Json
  | int (n : Int) : Json
  | str (s : String) : Json
  | arr (elems : List Json) : Json
  | obj (members : List (String × Json)) : Json
deriving Repr, Inhabited

namespace Json

/-- Object member lookup, modelling `isMember` + `operator[]` of the
value-tree collaborators (first binding wins); `none` on non-objects or
missing keys. -/
def find : Json → String → Option Json
  | .obj ms, key => (ms.find? (fun m => m.1 == key)).map (fun m => m.2)
  | _, _ => none

/-- Modelling `IsObject` / `isObject`. -/
def isObject : Json → Bool
  | .obj _ => true
  | _ => false

/-- Modelling `IsArray` / `isArray`. -/
def isArray : Json → Bool
  | .arr _ => true
  | _ => false

/-- Modelling `IsString` / `isString`. -/
def isString : Json → Bool
  | .str _ => true
  | _ => false

/-- Modelling `IsBool` / `isBool`. -/
def isBool : Json → Bool
  | .bool _ => true
  | _ => false

/-- Modelling `IsInt` / `isInt`. -/
def isInt : Json → Bool
  | .int _ => true
  | _ => false

end Json

/-! ## The request dispatcher (`Client::Implementation`)

The transport collaborator is modelled as an oracle from the attempt number
to the response it yields; a response is its status code together with the
parse outcome of its body text.  The pseudorandom generator draw consumed by
`resetCurrentHostInfo` is passed in explicitly; `uniform_int_distribution`
on `[a, b]` over a uniform draw is modelled as `a + draw % (b - a + 1)`. -/

/-- A transport response: status code (`0` when the node cannot be reached)
and the value-tree parse outcome of the body text. -/
structure Response where
  status : Nat
  text : Option Json
deriving Repr, Inhabited

/-- Modelled from `RandomUIntGenerator::getRandom`: the
`std::uniform_int_distribution(a, b)` collaborator applied to a uniform
`draw` is embedded as `a + draw % (b - a + 1)`. -/
def getRandom (draw a b : Nat) : Nat :=
  a + draw % (b - a + 1)

/-- The mutable selector state of `Client::Implementation`: the size of the
(immutable, non-empty) host list, the current host index, and the
consecutive-failure counter. -/
structure ClientState where
  hostCount : Nat
  currentHostIndex : Nat
  failCounter : Nat
deriving Repr, DecidableEq

/-- `Client::Implementation::resetCurrentHostInfo`: pick a fresh random index
in `[0, hostCount - 1]` and zero the failure counter. -/
def resetCurrentHostInfo (draw n : Nat) : ClientState :=
  { hostCount := n, currentHostIndex := getRandom draw 0 (n - 1), failCounter := 0 }

/-- `Client::Implementation::failCurrentHostAndIterateNext`: increment the
failure counter; on reaching the host-list size reset the selector and
report exhaustion (`false`), otherwise advance the index with wraparound and
report that the next node may be tried (`true`). -/
def failCurrentHostAndIterateNext (draw : Nat) (st : ClientState) : Bool × ClientState :=
  if st.failCounter + 1 ≥ st.hostCount then
    (false, resetCurrentHostInfo draw st.hostCount)
  else
    let ci := st.currentHostIndex + 1
    (true, { hostCount := st.hostCount,
             currentHostIndex := if ci ≥ st.hostCount then 0 else ci,
             failCounter := st.failCounter + 1 })

/-- `Client::Implementation::performRequestOnCurrentHost`, reduced to its
classification of the attempt: the attempt fails (returns `false`) exactly
when the transport reports status `0` (cannot connect) or the node answers
`503` (temporarily overloaded). -/
def performRequestOnCurrentHost (r : Response) : Bool :=
  !(r.status == 0 || r.status == 503)

/-- Outcome of one `performRequest` call: either a response together with the
final selector state and the ordered list of host indices attempted, or the
thrown `ConnectionException` ("All hosts failed for request.") with the same
data. -/
inductive PRResult where
  | ok (resp : Response) (st : ClientState) (attempted : List Nat) : PRResult
  | connectionException (st : ClientState) (attempted : List Nat) : PRResult
deriving Repr

/-- The retry loop of `Client::Implementation::performRequest`.  `oracle k`
is the response the transport yields on the `k`-th attempt of this call.
The state carried through is the selector state; the attempted list records
the host index used by each attempt in order. -/
def performRequestLoop (oracle : Nat → Response) (draw : Nat) (st : ClientState) (k : Nat) :
    PRResult :=
  if performRequestOnCurrentHost (oracle k) then
    .ok (oracle k) st [st.currentHostIndex]
  else
    let step := failCurrentHostAndIterateNext draw st
    if h : step.1 = true then
      match performRequestLoop oracle draw step.2 (k + 1) with
      | .ok r2 st2 as => .ok r2 st2 (st.currentHostIndex :: as)
      | .connectionException st2 as => .connectionException st2 (st.currentHostIndex :: as)
    else
      .connectionException step.2 [st.currentHostIndex]
termination_by st.hostCount - st.failCounter
decreasing_by
  simp only [failCurrentHostAndIterateNext, step] at h ⊢
  by_cases hc : st.hostCount ≤ st.failCounter + 1
  · simp [hc] at h
  · simp [hc]
    omega

/-- `Client::Implementation::performRequest`: run the retry loop and, on any
successful attempt, reset the fail counter to `0` (the assignment after the
loop); a full cycle of failures surfaces as `connectionException`. -/
def performRequest (oracle : Nat → Response) (draw : Nat) (st : ClientState) : PRResult :=
  match performRequestLoop oracle draw st 0 with
  | .ok r st1 as =>
      .ok r { hostCount := st1.hostCount, currentHostIndex := st1.currentHostIndex,
              failCounter := 0 } as
  | .connectionException st1 as => .connectionException st1 as

/-! ## The scroll cursor (`scroll.cc`)

`Scroll` shares the dispatcher through the client; at this layer a round
trip either yields a `Response` or raises `ConnectionException`, modelled as
`Except Unit Response`.  The transport for a whole scroll interaction is a
function from the issued request to that outcome. -/

/-- The HTTP methods of `Client::HTTPMethod`. -/
inductive HTTPMethod where
  | GET
  | POST
  | PUT
  | DELETE
  | HEAD
deriving Repr, DecidableEq

/-- One request as handed to `Client::performRequest`: method, URL path
behind the host, body. -/
structure Request where
  method : HTTPMethod
  urlPath : String
  body : String
deriving Repr, DecidableEq

/-- `Scroll::Implementation::ScrollParams`. -/
structure ScrollParams where
  scrollId : String
  searchBody : String
  docType : String
  indexName : String
deriving Repr, DecidableEq, Inhabited

/-- The `Scroll::Implementation` state: scroll parameters plus the page size
and cursor lifetime fixed at construction. -/
structure ScrollState where
  scrollParameters : ScrollParams
  scrollSize : Nat
  scrollTimeout : String
deriving Repr, DecidableEq, Inhabited

/-- Modelled from the spec: `scroll-impl.h`, which declares the
`Scroll::Implementation` state predicates, is not among the sources; per the
spec an empty cursor token means the scroll is not Started. -/
def isScrollStarted (st : ScrollState) : Bool :=
  !(st.scrollParameters.scrollId = "")

/-- Modelled from the spec: `scroll-impl.h` is not among the sources; per
the spec `init` stores index, type and search body, moving the instance from
Uninitialized to Initialized, and `clear` erases them all. -/
def isInitialized (st : ScrollState) : Bool :=
  !(st.scrollParameters.indexName = "" ∧ st.scrollParameters.docType = ""
    ∧ st.scrollParameters.searchBody = "")

/-- The `error` early return of `Scroll::Implementation::parseResult`: the
member is present and either not a boolean or the boolean `true`. -/
def errorCheckFailed (root : Json) : Bool :=
  match root.find "error" with
  | none => false
  | some (.bool b) => b
  | some _ => true

/-- The `timed_out` early return of `parseResult`: the member is present and
either not a boolean or the boolean `true`. -/
def timedOutCheckFailed (root : Json) : Bool :=
  match root.find "timed_out" with
  | none => false
  | some (.bool b) => b
  | some _ => true

/-- The `_shards` check of `parseResult`: `_shards` is an object whose
`failed` member is an integer not exceeding 0 (`asInt() > 0` is the failure
branch); a missing or non-object `_shards`, or a missing or non-integer
`failed`, is an early return. -/
def shardsCheckOk (root : Json) : Bool :=
  match root.find "_shards" with
  | some (.obj ms) =>
      match (Json.obj ms).find "failed" with
      | some (.int f) => decide (f ≤ 0)
      | _ => false
  | _ => false

/-- The tail of `parseResult`: requires `hits` to be an object holding a
`hits` array and `_scroll_id` to be a string, and then propagates the
`hits` object and the fresh cursor token. -/
def hitsPart (root : Json) : Option (Json × String) :=
  match root.find "hits" with
  | some (.obj hs) =>
      match (Json.obj hs).find "hits" with
      | some (.arr _) =>
          match root.find "_scroll_id" with
          | some (.str sid) => some (Json.obj hs, sid)
          | _ => none
      | _ => none
  | _ => none

/-- `Scroll::Implementation::parseResult`: the acceptance rule applied to
the parse outcome of a response body, as the sequence of early returns of
the source.  `some (hits, scrollId)` models `return true` with
`parsedResult` set to the `hits` object and the fresh cursor token stored;
`none` models `return false`. -/
def parseResult (root? : Option Json) : Option (Json × String) :=
  match root? with
  | none => none
  | some root =>
    if errorCheckFailed root then none
    else if timedOutCheckFailed root then none
    else if !shardsCheckOk root then none
    else hitsPart root

/-- `Scroll::Implementation::run` for one round trip whose outcome is
`resp`: only 2xx and 404 responses are parsed at all; a caught
`ConnectionException` is logged and surfaces as a failed page.  On an
accepted page the fresh cursor token replaces the stored one. -/
def scrollRun (st : ScrollState) (resp : Except Unit Response) :
    Option Json × ScrollState :=
  match resp with
  | .error _ => (none, st)
  | .ok r =>
      if r.status / 100 == 2 || r.status == 404 then
        match parseResult r.text with
        | some (hits, sid) =>
            (some hits,
             { st with scrollParameters := { st.scrollParameters with scrollId := sid } })
        | none => (none, st)
      else (none, st)

/-- The URL built by `Scroll::createScroll`. -/
def createScrollUrl (st : ScrollState) : String :=
  st.scrollParameters.indexName ++ "/" ++ st.scrollParameters.docType ++
    "/_search?scroll=" ++ st.scrollTimeout ++ "&size=" ++ toString st.scrollSize

/-- The URL built by `ScrollByScan::createScroll`. -/
def scanCreateScrollUrl (st : ScrollState) : String :=
  createScrollUrl st ++ "&search_type=scan"

/-- The URL built by the started branch of `Scroll::next`. -/
def nextScrollUrl (st : ScrollState) : String :=
  "_search/scroll?scroll=" ++ st.scrollTimeout

/-- The request `Scroll::next` issues, by branch: `none` when the scroll is
uninitialized (the call fails without contacting the network); the
`createScroll` POST when initialized but not started; otherwise the
`_search/scroll` POST whose body is `scrollParameters.scrollId`. -/
def nextRequest (st : ScrollState) : Option Request :=
  if !isInitialized st then none
  else if !isScrollStarted st then
    some ⟨.POST, createScrollUrl st, st.scrollParameters.searchBody⟩
  else
    some ⟨.POST, nextScrollUrl st, st.scrollParameters.scrollId⟩

mutual

/-- `ScrollByScan::createScroll`: perform the scan-create round trip; when
it yields a usable page, immediately call `next()` (virtually dispatched on
the scan instance) and return its result.  One unit of fuel is consumed per
virtual hop; the C++ recursion can only deepen while the server keeps
answering usable pages whose cursor token is empty. -/
def scanCreateScroll (tr : Request → Except Unit Response) :
    Nat → ScrollState → Option Json × ScrollState
  | 0, st => (none, st)
  | fuel + 1, st =>
      match scrollRun st
          (tr ⟨.POST, scanCreateScrollUrl st, st.scrollParameters.searchBody⟩) with
      | (some _, st1) => scanNext tr fuel st1
      | (none, st1) => (none, st1)

/-- `Scroll::next` as dispatched on a `ScrollByScan` instance. -/
def scanNext (tr : Request → Except Unit Response) :
    Nat → ScrollState → Option Json × ScrollState
  | 0, st => (none, st)
  | fuel + 1, st =>
      if !isInitialized st then (none, st)
      else if !isScrollStarted st then scanCreateScroll tr fuel st
      else scrollRun st (tr ⟨.POST, nextScrollUrl st, st.scrollParameters.scrollId⟩)

end

/-! ### Claim-statement predicates and concrete inputs for the scroll claims -/

/-- The acceptance conditions for one parsed response exactly as claim C3
words them: no error flag set `true`; `timed_out` absent or `false`; shard
information present with a numeric failed count equal to 0; a `hits.hits`
array present; a `_scroll_id` string present. -/
def c3ClaimUsablePage (root? : Option Json) : Bool :=
  match root? with
  | none => false
  | some root =>
      (match root.find "error" with
       | some (.bool true) => false
       | _ => true)
      && (match root.find "timed_out" with
          | none => true
          | some (.bool false) => true
          | _ => false)
      && (match root.find "_shards" with
          | some (.obj ms) =>
              match (Json.obj ms).find "failed" with
              | some (.int f) => f == 0
              | _ => false
          | _ => false)
      && (match root.find "hits" with
          | some (.obj hs) =>
              match (Json.obj hs).find "hits" with
              | some (.arr _) => true
              | _ => false
          | _ => false)
      && (match root.find "_scroll_id" with
          | some (.str _) => true
          | _ => false)

/-- Amended condition (i): the `error` member is absent or is the boolean
`false` (any other value, e.g. an error string, is a failure). -/
def c3ErrOkAmended (root : Json) : Bool :=
  match root.find "error" with
  | none => true
  | some (.bool false) => true
  | _ => false

/-- Amended condition (ii): `timed_out` is absent or the boolean `false`. -/
def c3TimedOutOkAmended (root : Json) : Bool :=
  match root.find "timed_out" with
  | none => true
  | some (.bool false) => true
  | _ => false

/-- Amended condition (iii): `_shards` is an object whose `failed` member is
an integer that is not positive. -/
def c3ShardsOkAmended (root : Json) : Bool :=
  match root.find "_shards" with
  | some (.obj ms) =>
      match (Json.obj ms).find "failed" with
      | some (.int f) => decide (f ≤ 0)
      | _ => false
  | _ => false

/-- Conditions (v) and (vi), unchanged from the claim: a `hits.hits` array
is present, and a `_scroll_id` string is present. -/
def c3HitsOk (root : Json) : Bool :=
  match root.find "hits" with
  | some (.obj hs) =>
      match (Json.obj hs).find "hits" with
      | some (.arr _) => true
      | _ => false
  | _ => false

/-- Condition (vi): a `_scroll_id` string is present. -/
def c3ScrollIdOk (root : Json) : Bool :=
  match root.find "_scroll_id" with
  | some (.str _) => true
  | _ => false

/-- The acceptance conditions as amended to match the code. -/
def c3AmendedUsablePage (root? : Option Json) : Bool :=
  match root? with
  | none => false
  | some root =>
      c3ErrOkAmended root && c3TimedOutOkAmended root && c3ShardsOkAmended root
        && c3HitsOk root && c3ScrollIdOk root

/-- A response body whose `error` member is a string: every condition of
claim C3 holds of it, yet `parseResult` rejects it. -/
def c3Root : Json :=
  Json.obj [("error", Json.str "shard failure details"),
            ("timed_out", Json.bool false),
            ("_shards", Json.obj [("failed", Json.int 0)]),
            ("hits", Json.obj [("hits", Json.arr [])]),
            ("_scroll_id", Json.str "cursor-token")]

/-- A started scroll state used to exhibit the body claim C8 makes. -/
def c8State : ScrollState :=
  { scrollParameters := { scrollId := "A0", searchBody := "\x7b\x7d",
                          docType := "fake_index", indexName := "test_scroll" },
    scrollSize := 100, scrollTimeout := "1m" }

/-- An initialized, not-started scroll state for the scan-variant witness. -/
def c9State : ScrollState :=
  { scrollParameters := { scrollId := "", searchBody := "\x7b\x7d",
                          docType := "t", indexName := "i" },
    scrollSize := 10, scrollTimeout := "1m" }

/-- A usable first page carrying cursor token `S1`. -/
def c9Page1 : Json :=
  Json.obj [("timed_out", Json.bool false),
            ("_shards", Json.obj [("failed", Json.int 0)]),
            ("hits", Json.obj [("hits", Json.arr [])]),
            ("_scroll_id", Json.str "S1")]

/-- A usable second page carrying cursor token `S2` and one hit. -/
def c9Page2 : Json :=
  Json.obj [("timed_out", Json.bool false),
            ("_shards", Json.obj [("failed", Json.int 0)]),
            ("hits", Json.obj [("hits", Json.arr [Json.null])]),
            ("_scroll_id", Json.str "S2")]

/-- A transport answering the scan-create POST with the empty first page and
everything else with the second page. -/
def c9Transport (req : Request) : Except Unit Response :=
  if req.urlPath = "i/t/_search?scroll=1m&size=10&search_type=scan" then
    .ok ⟨200, some c9Page1⟩
  else
    .ok ⟨200, some c9Page2⟩

/-- The state after the scan-create round trip of `c9Transport`. -/
def c9State1 : ScrollState :=
  { scrollParameters := { scrollId := "S1", searchBody := "\x7b\x7d",
                          docType := "t", indexName := "i" },
    scrollSize := 10, scrollTimeout := "1m" }

/-! ## The bulk batch (`bulk.cc`, `bulk-impl.h`)

`bulk.cc` carries two historical duplicates of the result accounting; the
newer one (the second in the file, built on `supportedActions` and
`containsError`) is embedded as `processResult`/`itemErrors`, while the
superseded first duplicate's per-item walk, which recognizes only the
`index` action key, is embedded as `itemErrorsV1` for comparison. -/

/-- `BulkItem`: control header plus optional source document. -/
structure BulkItem where
  control : String
  source : String
deriving Repr, DecidableEq, Inhabited

/-- `BulkItem::operator<<`: nothing for an empty control; otherwise the
control line and, when a source document is present, the document line. -/
def BulkItem.render (item : BulkItem) : String :=
  if item.control = "" then ""
  else item.control ++ "\n" ++ (if item.source = "" then "" else item.source ++ "\n")

/-- `createControl`: the one-line JSON control header; `_id` is omitted for
an empty document id. -/
def createControl (action docType docId : String) : String :=
  "\x7b\"" ++ action ++ "\": \x7b\"_type\": \"" ++ docType ++ "\"" ++
    (if docId = "" then "" else ", \"_id\": \"" ++ docId ++ "\"") ++ "\x7d\x7d"

/-- `SameIndexBulkData::body`: render every pending item in insertion
order. -/
def bulkBody (data : List BulkItem) : String :=
  String.join (data.map BulkItem.render)

/-- `validateDocument`: a document must not contain a newline
(`find_first_of` over the character data); `false` models the thrown
`std::runtime_error`. -/
def validateDocument (doc : String) : Bool :=
  !(doc.data.contains (Char.ofNat 10))

/-- The actions `SameIndexBulkData` can append. -/
inductive BulkAction where
  | index
  | create
  | update
deriving Repr, DecidableEq

/-- The action key written into the control header. -/
def BulkAction.name : BulkAction → String
  | .index => "index"
  | .create => "create"
  | .update => "update"

/-- The arguments of one `add` call (`indexDocument` / `createDocument` /
`updateDocument` with `validate = true`). -/
structure AddOp where
  action : BulkAction
  docType : String
  id : String
  doc : String
deriving Repr, DecidableEq

/-- One `add` call: throws (`error`) when the document holds a newline,
otherwise appends `(createControl action type id, doc)` and reports whether
the batch has reached its desired size. -/
def addDocument (size : Nat) (data : List BulkItem) (op : AddOp) :
    Except Unit (List BulkItem × Bool) :=
  if !validateDocument op.doc then .error ()
  else
    let data1 := data ++ [⟨createControl op.action.name op.docType op.id, op.doc⟩]
    .ok (data1, decide (data1.length ≥ size))

/-- A sequence of `add` calls in order; the first failed validation
propagates. -/
def addAll (size : Nat) (data : List BulkItem) : List AddOp → Except Unit (List BulkItem)
  | [] => .ok data
  | op :: ops =>
      match addDocument size data op with
      | .error e => .error e
      | .ok (data1, _) => addAll size data1 ops

/-- `supportedActions` of the newer accounting variant, in source order. -/
def supportedActions : List String := ["create", "index", "update", "delete"]

/-- `containsError` (newer variant): 1 error when the value under the action
key is not an object, lacks `status`, has a non-integer `status`, or has an
integer `status` outside `[200, 299]`; 0 otherwise.  Call sites guard the
key's presence with `HasMember`, so the lookup default is never taken
there. -/
def containsError (item : Json) (action : String) : Nat :=
  match (item.find action).getD .null with
  | .obj ms =>
      match (Json.obj ms).find "status" with
      | none => 1
      | some (.int status) => if status < 200 ∨ status > 299 then 1 else 0
      | some _ => 1
  | _ => 1

/-- One iteration of the `items` walk in the newer
`Bulk::Implementation::processResult`: a non-object counts one error;
otherwise the first supported action key present is checked through
`containsError`; an object bearing no supported action key is only
logged. -/
def itemErrors (item : Json) : Nat :=
  if !item.isObject then 1
  else
    match supportedActions.find? (fun action => (item.find action).isSome) with
    | some action => containsError item action
    | none => 0

/-- One iteration of the `items` walk of the superseded first duplicate in
`bulk.cc`: only the `index` key is recognized, and the range check is
`status / 100 != 2` with C integer division (truncation toward zero). -/
def itemErrorsV1 (item : Json) : Nat :=
  if !item.isObject then 1
  else
    match item.find "index" with
    | some res =>
        match res with
        | .obj ms =>
            match (Json.obj ms).find "status" with
            | none => 1
            | some (.int status) => if Int.tdiv status 100 ≠ 2 then 1 else 0
            | some _ => 1
        | _ => 1
    | none => 0

/-- The accumulation loop over the `items` array, in response order. -/
def processItems (elems : List Json) (errCount : Nat) : Nat :=
  elems.foldl (fun acc item => acc + itemErrors item) errCount

/-- `Bulk::Implementation::processResult` (newer variant): an unparseable or
non-object response counts the whole batch; an explicit `errors: false`
skips the walk; missing or non-array `items` only logs ("Err count is
inaccurate now!"); otherwise the `items` array is walked. -/
def processResult (root? : Option Json) (size errCount : Nat) : Nat :=
  match root? with
  | none => errCount + size
  | some root =>
      if !root.isObject then errCount + size
      else
        match root.find "errors" with
        | some (.bool false) => errCount
        | _ =>
            match root.find "items" with
            | none => errCount
            | some items =>
                match items with
                | .arr elems => processItems elems errCount
                | _ => errCount

/-- `Bulk::Implementation::run` (newer variant): a response status outside
`[200, 299]`, like a `ConnectionException` out of the dispatcher, counts the
entire batch as failed; otherwise the body is inspected by
`processResult`. -/
def bulkRun (bulkSize : Nat) (resp : Except Unit Response) (errCount : Nat) : Nat :=
  match resp with
  | .error _ => errCount + bulkSize
  | .ok r =>
      if r.status < 200 ∨ r.status > 299 then errCount + bulkSize
      else processResult r.text bulkSize errCount

/-- `Bulk::perform`: `(return value, stored errCount afterwards)` given the
stored count before the call.  An empty batch returns 0 immediately — before
the `errCount = 0` reset; otherwise the counter is reset and `run` adds to
it. -/
def bulkPerform (errCountBefore : Nat) (data : List BulkItem) (resp : Except Unit Response) :
    Nat × Nat :=
  if data.isEmpty then (0, errCountBefore)
  else
    let e := bulkRun data.length resp 0
    (e, e)

/-! ### Claim-statement predicates and concrete inputs for the bulk claims -/

/-- Claim C4's condition on the value under a recognized action key: it is
not an object, lacks a status field, has a non-numeric status, or has a
numeric status outside `[200, 299]`. -/
def c4ClaimActionValueBad (item : Json) (action : String) : Bool :=
  match (item.find action).getD .null with
  | .obj ms =>
      (match (Json.obj ms).find "status" with
       | some (.int status) => if 200 ≤ status ∧ status ≤ 299 then false else true
       | some _ => true
       | none => true)
  | _ => true

/-- The per-item error condition exactly as claim C4 words it: the item is
not an object, or the value under whichever recognized action key is present
satisfies `c4ClaimActionValueBad`. -/
def c4ClaimItemError (item : Json) : Bool :=
  !item.isObject ||
    match supportedActions.find? (fun action => (item.find action).isSome) with
    | some action => c4ClaimActionValueBad item action
    | none => false

/-- The members of a bulk response with `errors: true`, one failing and one
succeeding `index` item. -/
def c4Members : List (String × Json) :=
  [("errors", Json.bool true),
   ("items", Json.arr
     [Json.obj [("index", Json.obj [("status", Json.int 201)])],
      Json.obj [("index", Json.obj [("status", Json.int 429)])]])]

/-- A two-item batch. -/
def c5Data : List BulkItem := [⟨"ctl1", "doc1"⟩, ⟨"ctl2", "doc2"⟩]

/-- A 200 response whose body parses to an object with `errors: true` and no
`items` member at all. -/
def c5Resp : Except Unit Response :=
  Except.ok ⟨200, some (Json.obj [("errors", Json.bool true)])⟩

/-- A 200 response whose body is a fully successful bulk answer. -/
def c7Resp : Except Unit Response :=
  Except.ok ⟨200, some (Json.obj [("errors", Json.bool false)])⟩

/-- A response item that is an object bearing none of the recognized action
keys. -/
def c10Item : Json := Json.obj [("foo", Json.null)]

/-- Two concrete `add` calls. -/
def c6Ops : List AddOp :=
  [⟨BulkAction.index, "t1", "id1", "\x7b\"a\": 1\x7d"⟩,
   ⟨BulkAction.create, "t1", "", ""⟩]

/-! ### Dispatcher lemmas and claims C1, C2 -/

lemma wrapIdx (ci n : Nat) (h : ci < n) :
    (if ci + 1 ≥ n then 0 else ci + 1) = (ci + 1) % n := by
  split
  · have hn : ci + 1 = n := by omega
    simp [hn]
  · exact (Nat.mod_eq_of_lt (by omega)).symm

lemma rangeShift (m ci n : Nat) (h : ci < n) :
    ci :: ((List.range m).map fun j => ((ci + 1) % n + j) % n) =
      (List.range (m + 1)).map fun j => (ci + j) % n := by
  rw [List.range_succ_eq_map, List.map_cons, List.map_map]
  congr 1
  · simp [Nat.mod_eq_of_lt h]
  · apply List.map_congr_left
    intro j hj
    show ((ci + 1) % n + j) % n = (ci + Nat.succ j) % n
    rw [Nat.mod_add_mod]
    congr 1
    omega

lemma attemptedNodup (n ci : Nat) :
    ((List.range n).map fun j => (ci + j) % n).Nodup := by
  rcases Nat.eq_zero_or_pos n with hn | hn
  · simp [hn]
  refine List.Nodup.map_on ?_ (List.nodup_range n)
  intro j1 h1 j2 h2 heq
  rw [List.mem_range] at h1 h2
  have hmod : j1 % n = j2 % n := Nat.ModEq.add_left_cancel' ci heq
  rwa [Nat.mod_eq_of_lt h1, Nat.mod_eq_of_lt h2] at hmod

/-- When every attempt fails, the loop walks the remaining
`hostCount - failCounter` hosts one by one with wraparound, then resets the
selector and raises the exhaustion outcome. -/
lemma performRequestLoop_allFailed (oracle : Nat → Response) (draw : Nat)
    (hfail : ∀ j, performRequestOnCurrentHost (oracle j) = false) :
    ∀ m, 1 ≤ m → ∀ st k, st.failCounter + m = st.hostCount →
      st.currentHostIndex < st.hostCount →
      performRequestLoop oracle draw st k =
        .connectionException (resetCurrentHostInfo draw st.hostCount)
          ((List.range m).map fun j => (st.currentHostIndex + j) % st.hostCount) := by
  intro m
  induction m with
  | zero => omega
  | succ m ih =>
    intro _ st k hfc hci
    rw [performRequestLoop]
    rcases Nat.eq_zero_or_pos m with hm0 | hm1
    · subst hm0
      have hcond : st.failCounter + 1 ≥ st.hostCount := by omega
      simp [hfail k, failCurrentHostAndIterateNext, hcond, List.range_succ,
            Nat.mod_eq_of_lt hci]
    · have hcond : ¬ st.failCounter + 1 ≥ st.hostCount := by omega
      have hwrap := wrapIdx st.currentHostIndex st.hostCount hci
      have hci1 : (st.currentHostIndex + 1) % st.hostCount < st.hostCount :=
        Nat.mod_lt _ (by omega)
      have hrec := ih hm1
        ⟨st.hostCount, (st.currentHostIndex + 1) % st.hostCount, st.failCounter + 1⟩
        (k + 1) (by simp; omega) (by simpa using hci1)
      simp only [hfail k, Bool.false_eq_true, if_false,
        failCurrentHostAndIterateNext, hcond, if_neg hcond, hwrap] at hrec ⊢
      rw [hrec]
      simp only [resetCurrentHostInfo]
      rw [rangeShift m st.currentHostIndex st.hostCount hci]
      simp

/-- C1: For every performRequest call and every node attempt within it, the
attempt is classified as failed exactly when the transport reports status 0
or the node answers 503; any other response ends the operation immediately
and is returned to the caller as-is (that attempt is the only one made, the
current node index is unchanged, no further node is tried). -/
theorem c1_attempt_classification (oracle : Nat → Response) (draw : Nat)
    (st : ClientState) (k : Nat) :
    (performRequestOnCurrentHost (oracle k) = false ↔
        (oracle k).status = 0 ∨ (oracle k).status = 503)
    ∧ (performRequestOnCurrentHost (oracle k) = true →
        performRequestLoop oracle draw st k = .ok (oracle k) st [st.currentHostIndex]) := by
  constructor
  · simp [performRequestOnCurrentHost]
    omega
  · intro hok
    rw [performRequestLoop]
    simp [hok]

/-- Witness for C1 at a concrete input: a 404 answer is not a failed
attempt and is returned as-is from the first node tried. -/
theorem c1_attempt_classification_witness :
    performRequestLoop (fun _ => ⟨404, none⟩) 7 ⟨3, 1, 0⟩ 0 =
      .ok ⟨404, none⟩ ⟨3, 1, 0⟩ [1] :=
  (c1_attempt_classification (fun _ => ⟨404, none⟩) 7 ⟨3, 1, 0⟩ 0).2 (by decide)

/-- C2: For a client over `N ≥ 1` nodes, if every attempt fails (status 0 or
503 on each node), `performRequest` makes exactly `N` attempts — one per
node, advancing the current index by one with wraparound — then throws
`ConnectionException`; afterwards the fail counter is 0 and the current
index has been re-randomized in `[0, N)` (the fresh draw is mapped onto
`[0, N)` so that every index is reachable; uniformity is inherited from the
uniform draw of the distribution collaborator). -/
theorem c2_exhaustion_after_n_attempts (oracle : Nat → Response) (draw : Nat)
    (st : ClientState) (hn : 1 ≤ st.hostCount)
    (hci : st.currentHostIndex < st.hostCount) (hfc : st.failCounter = 0)
    (hfail : ∀ j, performRequestOnCurrentHost (oracle j) = false) :
    performRequest oracle draw st =
      .connectionException (resetCurrentHostInfo draw st.hostCount)
        ((List.range st.hostCount).map fun j =>
          (st.currentHostIndex + j) % st.hostCount)
    ∧ ((List.range st.hostCount).map fun j =>
        (st.currentHostIndex + j) % st.hostCount).length = st.hostCount
    ∧ ((List.range st.hostCount).map fun j =>
        (st.currentHostIndex + j) % st.hostCount).Nodup
    ∧ (∀ a ∈ (List.range st.hostCount).map fun j =>
        (st.currentHostIndex + j) % st.hostCount, a < st.hostCount)
    ∧ (resetCurrentHostInfo draw st.hostCount).failCounter = 0
    ∧ (resetCurrentHostInfo draw st.hostCount).currentHostIndex < st.hostCount
    ∧ (∀ i < st.hostCount, ∃ d, (resetCurrentHostInfo d st.hostCount).currentHostIndex = i) := by
  refine ⟨?_, by simp, attemptedNodup _ _, ?_, rfl, ?_, ?_⟩
  · unfold performRequest
    rw [performRequestLoop_allFailed oracle draw hfail st.hostCount hn st 0 (by omega) hci]
  · intro a ha
    simp only [List.mem_map] at ha
    obtain ⟨j, _, hj⟩ := ha
    subst hj
    exact Nat.mod_lt _ (by omega)
  · simp only [resetCurrentHostInfo, getRandom]
    have hmod : st.hostCount - 1 - 0 + 1 = st.hostCount := by omega
    rw [hmod]
    have := Nat.mod_lt draw (show 0 < st.hostCount by omega)
    omega
  · intro i hi
    refine ⟨i, ?_⟩
    simp only [resetCurrentHostInfo, getRandom]
    have hmod : st.hostCount - 1 - 0 + 1 = st.hostCount := by omega
    rw [hmod, Nat.mod_eq_of_lt hi]
    omega

/-- Witness for C2 at a concrete input: two unreachable nodes, start index
1, draw 5; the call attempts hosts 1 then 0 and exhausts, ending with fail
counter 0 and index `5 % 2 = 1`. -/
theorem c2_exhaustion_after_n_attempts_witness :
    performRequest (fun _ => ⟨0, none⟩) 5 ⟨2, 1, 0⟩ =
      .connectionException ⟨2, 1, 0⟩ [1, 0] := by
  have h := c2_exhaustion_after_n_attempts (fun _ => ⟨0, none⟩) 5 ⟨2, 1, 0⟩
    (by decide) (by decide) rfl (fun _ => rfl)
  simpa [resetCurrentHostInfo, getRandom, List.range_succ] using h.1

/-! ### Scroll lemmas and claims C3, C8, C9 -/

lemma scrollRun_preserves_init (st : ScrollState) (resp : Except Unit Response) :
    isInitialized (scrollRun st resp).2 = isInitialized st := by
  rcases resp with e | r
  · rfl
  · simp only [scrollRun]
    split
    · rcases hp : parseResult r.text with _ | p
      · simp
      · simp [isInitialized]
    · rfl

lemma c3_err_component (root : Json) :
    c3ErrOkAmended root = !errorCheckFailed root := by
  rcases h : root.find "error" with _ | (_ | (_ | _) | n | s | el | ms) <;>
    simp [c3ErrOkAmended, errorCheckFailed, h]

lemma c3_timed_out_component (root : Json) :
    c3TimedOutOkAmended root = !timedOutCheckFailed root := by
  rcases h : root.find "timed_out" with _ | (_ | (_ | _) | n | s | el | ms) <;>
    simp [c3TimedOutOkAmended, timedOutCheckFailed, h]

lemma c3_shards_component (root : Json) :
    c3ShardsOkAmended root = shardsCheckOk root := rfl

lemma c3_hits_component (root : Json) :
    (hitsPart root).isSome = (c3HitsOk root && c3ScrollIdOk root) := by
  rcases hh : root.find "hits" with _ | (_ | (_ | _) | n | s | el | ms) <;>
    simp only [hitsPart, c3HitsOk, c3ScrollIdOk, hh] <;> try simp
  rcases hhh : (Json.obj ms).find "hits" with _ | (_ | (_ | _) | n2 | s2 | el2 | ms2) <;>
    simp only [hhh] <;> try simp
  rcases hsid : root.find "_scroll_id" with _ | (_ | (_ | _) | n3 | s3 | el3 | ms3) <;>
    simp [hsid]

/-- C3 counterexample: a response whose `error` member is a string satisfies
every condition the claim lists (in particular, no error flag is set
`true`), yet `parseResult` classifies it as a failed page. -/
theorem c3_counterexample :
    c3ClaimUsablePage (some c3Root) = true ∧ parseResult (some c3Root) = none := by
  constructor <;> rfl

/-- C3 as amended: a round trip yields a usable page exactly when the body
parses, the `error` member is absent or the boolean `false`, `timed_out` is
absent or `false`, `_shards` is an object whose `failed` member is an
integer that is not positive, a `hits.hits` array is present and a
`_scroll_id` string is present; any violation — as well as a transport
exhaustion or an unaccepted HTTP status — yields a failed page (no
exception is modelled: `scrollRun` is total and catches the connection
error).  The object-root hypothesis reflects that the value-tree
collaborator only answers membership questions on objects (or null). -/
theorem c3_amended_acceptance (root? : Option Json)
    (hobj : ∀ r, root? = some r → r.isObject = true ∨ r = Json.null) :
    (parseResult root?).isSome = c3AmendedUsablePage root?
    ∧ (∀ st e, scrollRun st (.error e) = (none, st))
    ∧ (∀ st r, ¬(r.status / 100 = 2 ∨ r.status = 404) → scrollRun st (.ok r) = (none, st))
    ∧ (∀ st r, parseResult r.text = none → scrollRun st (.ok r) = (none, st)) := by
  refine ⟨?_, fun st e => rfl, ?_, ?_⟩
  · clear hobj
    rcases root? with _ | root
    · rfl
    · simp only [parseResult, c3AmendedUsablePage]
      rw [c3_err_component root, c3_timed_out_component root, c3_shards_component root]
      cases hE : errorCheckFailed root
      · cases hT : timedOutCheckFailed root
        · cases hS : shardsCheckOk root
          · simp [hS]
          · simpa [hS] using c3_hits_component root
        · simp [hT]
      · simp [hE]
  · intro st r hstat
    simp only [scrollRun]
    have hcond : (r.status / 100 == 2 || r.status == 404) = false := by
      simp only [Bool.or_eq_false_iff, beq_eq_false_iff_ne]
      omega
    rw [hcond]
    simp
  · intro st r hparse
    simp only [scrollRun]
    split
    · rw [hparse]
    · rfl

/-- Witness for the amended C3 at a concrete input: the page `c9Page1` is
accepted and its rejection conditions all absent. -/
theorem c3_amended_acceptance_witness :
    (parseResult (some c9Page1)).isSome = c3AmendedUsablePage (some c9Page1) :=
  (c3_amended_acceptance (some c9Page1)
    (fun r hr => by rw [Option.some_inj] at hr; rw [← hr]; left; rfl)).1

/-- C8 counterexample: on a started scroll with cursor token `A0` and ttl
`1m`, `next` issues the `_search/scroll` POST whose body is the raw token
`A0`, not the JSON object the claim states. -/
theorem c8_counterexample :
    nextRequest c8State = some ⟨.POST, "_search/scroll?scroll=1m", "A0"⟩
    ∧ "A0" ≠ "\x7b\"scroll_id\": \"A0\"\x7d" := by
  constructor
  · rfl
  · decide

/-- C8 as amended: on a started (and initialized) scroll, `next` issues a
POST to `_search/scroll?scroll={ttl}` whose body is the raw held cursor
token itself, not wrapped in a JSON object. -/
theorem c8_next_request (st : ScrollState) (hinit : isInitialized st = true)
    (hstarted : isScrollStarted st = true) :
    nextRequest st =
      some ⟨.POST, "_search/scroll?scroll=" ++ st.scrollTimeout,
            st.scrollParameters.scrollId⟩ := by
  simp [nextRequest, hinit, hstarted, nextScrollUrl]

/-- Witness for the amended C8 at the concrete started state. -/
theorem c8_next_request_witness :
    nextRequest c8State = some ⟨.POST, "_search/scroll?scroll=" ++ "1m", "A0"⟩ :=
  c8_next_request c8State rfl rfl

/-- C9: whenever the first (scan-create) round trip of
`ScrollByScan::createScroll` yields a usable page, the call immediately
performs one further `next()` round trip — the `_search/scroll` POST on the
transport, with the freshly stored cursor token — and returns that round
trip's result, so the caller never observes the scan protocol's empty first
page. -/
theorem c9_scan_create_performs_extra_next (tr : Request → Except Unit Response)
    (st : ScrollState) (fuel : Nat) (j : Json) (st1 : ScrollState)
    (hinit : isInitialized st = true)
    (hrun : scrollRun st
        (tr ⟨.POST, scanCreateScrollUrl st, st.scrollParameters.searchBody⟩) = (some j, st1))
    (hstarted : isScrollStarted st1 = true) :
    scanCreateScroll tr (fuel + 2) st =
      scrollRun st1 (tr ⟨.POST, nextScrollUrl st1, st1.scrollParameters.scrollId⟩) := by
  have hinit1 : isInitialized st1 = true := by
    have := scrollRun_preserves_init st
      (tr ⟨.POST, scanCreateScrollUrl st, st.scrollParameters.searchBody⟩)
    rw [hrun] at this
    rw [this, hinit]
  show scanCreateScroll tr (fuel + 1 + 1) st = _
  rw [scanCreateScroll, hrun]
  show scanNext tr (fuel + 1) st1 = _
  rw [scanNext.eq_def]
  simp [hinit1, hstarted]

/-- Witness for C9 at a concrete input: with `c9Transport`, the scan create
consumes the empty first page and returns the second page (one hit, token
`S2`). -/
theorem c9_scan_create_performs_extra_next_witness :
    scanCreateScroll c9Transport 5 c9State =
      (some (Json.obj [("hits", Json.arr [Json.null])]),
       { scrollParameters := { scrollId := "S2", searchBody := "\x7b\x7d",
                               docType := "t", indexName := "i" },
         scrollSize := 10, scrollTimeout := "1m" }) := by
  have h := c9_scan_create_performs_extra_next c9Transport c9State 3
    (Json.obj [("hits", Json.arr [])]) c9State1 rfl rfl rfl
  norm_num at h
  rw [h]
  rfl

/-! ### Bulk lemmas and claims C4, C5, C6, C7, C10 -/

lemma processItems_eq_sum (elems : List Json) (e : Nat) :
    processItems elems e = e + (elems.map itemErrors).sum := by
  induction elems generalizing e with
  | nil => simp [processItems]
  | cons x xs ih =>
      simp only [processItems, List.foldl_cons, List.map_cons, List.sum_cons]
      rw [show List.foldl (fun acc item => acc + itemErrors item) (e + itemErrors x) xs =
            processItems xs (e + itemErrors x) from rfl, ih]
      omega

lemma processResult_errors_not_false (ms : List (String × Json)) (size e : Nat)
    (herrors : (Json.obj ms).find "errors" ≠ some (Json.bool false)) :
    processResult (some (Json.obj ms)) size e =
      (match (Json.obj ms).find "items" with
       | none => e
       | some items =>
           match items with
           | .arr elems => processItems elems e
           | _ => e) := by
  simp only [processResult, Json.isObject, Bool.not_true, Bool.false_eq_true, if_false]

lemma createControl_ne_empty (action docType docId : String) :
    ¬ createControl action docType docId = "" := by
  intro h
  have hd := congrArg String.data h
  simp [createControl, String.data_append] at hd

lemma render_of_add (op : AddOp) :
    BulkItem.render ⟨createControl op.action.name op.docType op.id, op.doc⟩ =
      createControl op.action.name op.docType op.id ++ "\n" ++
        (if op.doc = "" then "" else op.doc ++ "\n") := by
  simp [BulkItem.render, createControl_ne_empty]

lemma addAll_ok (size : Nat) (ops : List AddOp)
    (hvalid : ∀ op ∈ ops, validateDocument op.doc = true) :
    ∀ data, addAll size data ops =
      .ok (data ++ ops.map fun op =>
        ⟨createControl op.action.name op.docType op.id, op.doc⟩) := by
  induction ops with
  | nil => intro data; simp [addAll]
  | cons op ops ih =>
      intro data
      have hop : validateDocument op.doc = true := hvalid op (by simp)
      simp only [addAll, addDocument, hop, Bool.not_true, Bool.false_eq_true, if_false]
      rw [ih (fun o ho => hvalid o (by simp [ho]))]
      simp

/-- C6: for every sequence of `add` calls (whose documents pass validation),
`body()` is exactly the concatenation, in insertion order, of
`{control}\n{document}\n` per pending item — the control line alone when the
item carries no document — where each control line is
`createControl(action, type, id)` for the arguments of the `add`,
unchanged. -/
theorem c6_body_is_concatenation (size : Nat) (ops : List AddOp)
    (hvalid : ∀ op ∈ ops, validateDocument op.doc = true) :
    addAll size [] ops =
      .ok (ops.map fun op => ⟨createControl op.action.name op.docType op.id, op.doc⟩)
    ∧ bulkBody (ops.map fun op =>
        ⟨createControl op.action.name op.docType op.id, op.doc⟩) =
        String.join (ops.map fun op =>
          createControl op.action.name op.docType op.id ++ "\n" ++
            (if op.doc = "" then "" else op.doc ++ "\n")) := by
  constructor
  · simpa using addAll_ok size ops hvalid []
  · simp only [bulkBody, List.map_map]
    refine congrArg String.join (List.map_congr_left ?_)
    intro op _
    exact render_of_add op

/-- Witness for C6 at two concrete `add` calls, one of them carrying an
empty document. -/
theorem c6_body_is_concatenation_witness :
    addAll 100 [] c6Ops =
      .ok (c6Ops.map fun op => ⟨createControl op.action.name op.docType op.id, op.doc⟩)
    ∧ bulkBody (c6Ops.map fun op =>
        ⟨createControl op.action.name op.docType op.id, op.doc⟩) =
        String.join (c6Ops.map fun op =>
          createControl op.action.name op.docType op.id ++ "\n" ++
            (if op.doc = "" then "" else op.doc ++ "\n")) :=
  c6_body_is_concatenation 100 c6Ops (by decide)

lemma containsError_of_bad (item : Json) (action : String)
    (hb : c4ClaimActionValueBad item action = true) :
    containsError item action = 1 := by
  simp only [c4ClaimActionValueBad] at hb
  simp only [containsError]
  rcases hfind : item.find action with _ | v
  · rfl
  · simp only [hfind, Option.getD_some] at hb
    rcases v with _ | b1 | n1 | s1 | el1 | ms1 <;> simp at hb ⊢
    rcases hst : (Json.obj ms1).find "status" with _ | w
    · simp
    · simp only [hst] at hb
      rcases w with _ | b2 | status | s2 | el2 | ms2 <;> simp at hb ⊢
      omega

lemma containsError_of_good (item : Json) (action : String)
    (hb : c4ClaimActionValueBad item action = false) :
    containsError item action = 0 := by
  simp only [c4ClaimActionValueBad] at hb
  simp only [containsError]
  rcases hfind : item.find action with _ | v
  · simp only [hfind, Option.getD_none] at hb
    simp at hb
  · simp only [hfind, Option.getD_some] at hb
    rcases v with _ | b1 | n1 | s1 | el1 | ms1 <;> simp at hb ⊢
    rcases hst : (Json.obj ms1).find "status" with _ | w
    · simp only [hst] at hb
      simp at hb
    · simp only [hst] at hb
      rcases w with _ | b2 | status | s2 | el2 | ms2 <;> simp at hb ⊢
      omega

lemma containsError_eq_claim (item : Json) (action : String) :
    containsError item action = if c4ClaimActionValueBad item action then 1 else 0 := by
  by_cases hb : c4ClaimActionValueBad item action = true
  · rw [if_pos hb]
    exact containsError_of_bad item action hb
  · rw [if_neg hb]
    rw [Bool.not_eq_true] at hb
    exact containsError_of_good item action hb

/-- C4: when a bulk response is an object whose `errors` flag is not
explicitly `false` and whose `items` member is an array, the walk adds, in
response order, exactly one error per item satisfying the claim's
condition — the item is not an object, or the value under whichever
recognized action key is present is not an object, lacks a status, has a
non-numeric status, or has a numeric status outside `[200, 299]` — and
nothing for the others. -/
theorem c4_item_error_accounting (ms : List (String × Json)) (elems : List Json)
    (size e0 : Nat)
    (herrors : (Json.obj ms).find "errors" ≠ some (Json.bool false))
    (hitems : (Json.obj ms).find "items" = some (Json.arr elems)) :
    processResult (some (Json.obj ms)) size e0 = e0 + (elems.map itemErrors).sum
    ∧ ∀ item, itemErrors item = if c4ClaimItemError item then 1 else 0 := by
  constructor
  · rw [processResult_errors_not_false ms size e0 herrors, hitems]
    simp [processItems_eq_sum]
  · intro item
    rcases item with _ | b | n | s | el | ms0 <;>
      simp only [itemErrors, c4ClaimItemError, Json.isObject, Bool.not_true, Bool.not_false,
        Bool.true_or, Bool.false_or, if_true, if_false] <;> try rfl
    rcases hfa : supportedActions.find? (fun action => ((Json.obj ms0).find action).isSome)
      with _ | action
    · simp
    · simp only [hfa]
      exact containsError_eq_claim (Json.obj ms0) action

/-- Witness for C4 at a concrete response: `errors: true` with one `index`
item at status 201 and one at 429 — the walk counts exactly one error. -/
theorem c4_item_error_accounting_witness :
    processResult (some (Json.obj c4Members)) 2 0 = 1 :=
  (c4_item_error_accounting c4Members
    [Json.obj [("index", Json.obj [("status", Json.int 201)])],
     Json.obj [("index", Json.obj [("status", Json.int 429)])]] 2 0
    (fun hcon => absurd (Json.bool.inj (Option.some.inj hcon)) (by decide))
    rfl).1

/-- C5 counterexample: a non-empty batch of 2, a 200 response parsing to an
object with `errors: true` and no `items` member — `perform` returns 0, not
the batch size 2 the claim requires. -/
theorem c5_missing_items_keeps_zero_count :
    bulkPerform 0 c5Data c5Resp = (0, 0) ∧ c5Data.length = 2 ∧ (0 : Nat) ≠ 2 :=
  ⟨rfl, rfl, by decide⟩

/-- C5 as amended: on a 2xx response for a non-empty batch, an unparseable
or non-object body makes `perform` report the whole batch size; but a parsed
object (with `errors` not explicitly `false`) whose `items` member is
missing or not an array leaves the count untouched — `perform` returns 0,
with only a warning logged. -/
theorem c5_whole_batch_vs_missing_items (e0 : Nat) (data : List BulkItem) (r : Response)
    (hne : data ≠ []) (hstatus : 200 ≤ r.status ∧ r.status ≤ 299) :
    ((r.text = none ∨ ∃ root, r.text = some root ∧ root.isObject = false) →
        bulkPerform e0 data (.ok r) = (data.length, data.length))
    ∧ (∀ ms, r.text = some (Json.obj ms) →
        (Json.obj ms).find "errors" ≠ some (Json.bool false) →
        ((Json.obj ms).find "items" = none ∨
          ∃ v, (Json.obj ms).find "items" = some v ∧ v.isArray = false) →
        bulkPerform e0 data (.ok r) = (0, 0)) := by
  have hempty : data.isEmpty = false := by
    cases data
    · exact absurd rfl hne
    · rfl
  have hcond : ¬(r.status < 200 ∨ r.status > 299) := by omega
  constructor
  · intro htext
    simp only [bulkPerform, hempty, Bool.false_eq_true, if_false]
    have hrun : bulkRun data.length (.ok r) 0 = data.length := by
      simp only [bulkRun, if_neg hcond]
      rcases htext with h | ⟨root, hroot, hobj⟩
      · rw [h]
        simp [processResult]
      · rw [hroot]
        simp [processResult, hobj]
    rw [hrun]
  · intro ms htext herrors hitems
    simp only [bulkPerform, hempty, Bool.false_eq_true, if_false]
    have hrun : bulkRun data.length (.ok r) 0 = 0 := by
      simp only [bulkRun, if_neg hcond]
      rw [htext, processResult_errors_not_false ms data.length 0 herrors]
      rcases hitems with h | ⟨v, hv, harr⟩
      · rw [h]
      · rw [hv]
        rcases v with _ | b | n | s | el | ms2
        · rfl
        · rfl
        · rfl
        · rfl
        · simp [Json.isArray] at harr
        · rfl
    rw [hrun]

/-- Witness for the amended C5: the concrete batch and missing-items
response of the counterexample, through the amended statement. -/
theorem c5_whole_batch_vs_missing_items_witness :
    bulkPerform 0 c5Data (Except.ok ⟨200, some (Json.obj [("errors", Json.bool true)])⟩) =
      (0, 0) :=
  (c5_whole_batch_vs_missing_items 0 c5Data ⟨200, some (Json.obj [("errors", Json.bool true)])⟩
    (by decide) (by decide)).2 [("errors", Json.bool true)] rfl
    (fun hcon => absurd (Json.bool.inj (Option.some.inj hcon)) (by decide))
    (Or.inl rfl)

/-- C7 counterexample: with a stored count of 5, `perform` on an empty batch
returns 0 but leaves the stored count at 5 — `getErrorCount` afterwards
reports 5, not 0, because the empty-batch early return precedes the
reset. -/
theorem c7_empty_perform_keeps_stale_count :
    bulkPerform 5 [] c7Resp = (0, 5) ∧ (5 : Nat) ≠ 0 :=
  ⟨rfl, by decide⟩

/-- C7 as amended: the stored error count is reset at the start of `perform`
only for non-empty batches (making the reported value independent of any
previous call); for an empty batch `perform` returns 0 immediately and the
stored count — what `getErrorCount` reports — keeps its previous value. -/
theorem c7_reset_only_when_nonempty (e0 : Nat) (data : List BulkItem)
    (resp : Except Unit Response) :
    (data ≠ [] →
      bulkPerform e0 data resp = (bulkRun data.length resp 0, bulkRun data.length resp 0))
    ∧ (data = [] → bulkPerform e0 data resp = (0, e0)) := by
  constructor
  · intro hne
    have hempty : data.isEmpty = false := by
      cases data
      · exact absurd rfl hne
      · rfl
    simp [bulkPerform, hempty]
  · intro h
    subst h
    rfl

/-- Witness for the amended C7 at a concrete non-empty batch. -/
theorem c7_reset_only_when_nonempty_witness :
    bulkPerform 7 c5Data c7Resp = (bulkRun c5Data.length c7Resp 0, bulkRun c5Data.length c7Resp 0) :=
  (c7_reset_only_when_nonempty 7 c5Data c7Resp).1 (by decide)

/-- C10: a response item that is an object bearing none of the recognized
action keys contributes no error in either accounting variant — it is only
logged — so the reported count can undercount the batch's failures. -/
theorem c10_unrecognized_action_key_not_counted (item : Json)
    (hobj : item.isObject = true)
    (hnone : ∀ action ∈ supportedActions, item.find action = none) :
    itemErrors item = 0 ∧ itemErrorsV1 item = 0
    ∧ (∀ elems size e0, (∀ it ∈ elems, itemErrors it = 0) →
        processResult (some (Json.obj [("errors", Json.bool true), ("items", Json.arr elems)]))
          size e0 = e0) := by
  have hc := hnone "create" (by simp [supportedActions])
  have hi := hnone "index" (by simp [supportedActions])
  have hu := hnone "update" (by simp [supportedActions])
  have hd := hnone "delete" (by simp [supportedActions])
  refine ⟨?_, ?_, ?_⟩
  · simp [itemErrors, hobj, supportedActions, List.find?, hc, hi, hu, hd]
  · simp [itemErrorsV1, hobj, hi]
  · intro elems size e0 hzero
    have herr : (Json.obj [("errors", Json.bool true), ("items", Json.arr elems)]).find
        "errors" = some (Json.bool true) := rfl
    rw [processResult_errors_not_false _ size e0 (by rw [herr]; simp)]
    have hfind : (Json.obj [("errors", Json.bool true), ("items", Json.arr elems)]).find
        "items" = some (Json.arr elems) := rfl
    rw [hfind]
    have hsum : (elems.map itemErrors).sum = 0 := by
      apply List.sum_eq_zero
      intro x hx
      simp only [List.mem_map] at hx
      obtain ⟨it, hit, rfl⟩ := hx
      exact hzero it hit
    rw [show (match some (Json.arr elems) with
        | none => e0
        | some items =>
            match items with
            | Json.arr elems => processItems elems e0
            | _ => e0) = processItems elems e0 from rfl]
    rw [processItems_eq_sum, hsum]
    omega

/-- Witness for C10 at a concrete item `{"foo": null}`. -/
theorem c10_unrecognized_action_key_not_counted_witness :
    itemErrors c10Item = 0 ∧ itemErrorsV1 c10Item = 0 := by
  have h := c10_unrecognized_action_key_not_counted c10Item rfl
    (fun action ha => by
      simp only [supportedActions, List.mem_cons, List.not_mem_nil, or_false] at ha
      rcases ha with rfl | rfl | rfl | rfl <;> rfl)
  exact ⟨h.1, h.2.1⟩

end Elasticlient
